import Mathlib

/-!
Verification model of `src/bconsWS.js` (the `BconsWS` WebSocket client class).

The class is a single-threaded, event-driven connection manager.  We embed it
shallowly: the mutable instance fields become a `BconsState` record, and each
event handler (`connect`, `onopen`, `onclose`, `onerror`, `onmessage`, `send`,
the constructor) becomes a pure function from a state to a new state together
with a list of emitted `Action`s (socket creation, timer scheduling/cancelling,
frame sends, delayed error delivery).  A `setTimeout` call is modelled by the
corresponding `Action` carrying its delay in milliseconds.

Callback fields (`onMessage`, `msgLog`, `errLog`) are modelled by their
presence (`Bool`), since the code only ever tests them for truthiness before
invoking them; the behaviour of a registered `onMessage` callback is
parameterised where it matters (the `onmessage` handler, which guards it with
a try/catch).
-/

namespace BconsWS

/-- A transport handle: the `readyState` phase (0 = connecting, 1 = open,
2 = closing, 3 = closed, standard WebSocket numbering, see the comment at
line 71 of the source) and the URL it was created with. -/
structure SocketHandle where
  readyState : Nat
  url : String
deriving DecidableEq, Repr

/-- The mutable instance fields of a `BconsWS` object (source lines 9-41):
`userToken`, `wsServer`, `device`, presence of the `onMessage` callback,
the socket handle `ws`, `reconnectCount`, `reconnectTimerId`, and
`currentWsServer`. -/
structure BconsState where
  userToken : String
  wsServer : String
  device : String
  hasOnMessage : Bool
  ws : Option SocketHandle
  reconnectCount : Nat
  reconnectTimerId : Option Nat
  currentWsServer : String
deriving DecidableEq, Repr

/-- Observable effects of a handler invocation, in program order.
`scheduleReconnect d` is the `setTimeout(() => this.connect(), d)` at source
line 134; `cancelTimer` is the `clearTimeout` at line 132;
`scheduleErrorDelivery d c r` is the `setTimeout(() => this.onMessage(content), 3000)`
at line 101 delivering the payload `\x7berrorCode: c, reason: r\x7d` once;
`sendFrame` is a `ws.send`; `immediateConnect` marks the synchronous
`this.connect()` call at line 95 (redirect, no timer involved). -/
inductive Action where
  | sendFrame (frame : String)
  | scheduleReconnect (delayMs : Nat)
  | cancelTimer (id : Nat)
  | scheduleErrorDelivery (delayMs : Nat) (errorCode : Nat) (reason : String)
  | immediateConnect
deriving DecidableEq, Repr

/-- Outcome of a `connect()` call (source lines 56-78): the three silent
abort paths, or creation of a fresh socket. -/
inductive ConnectResult where
  | abortedNoToken
  | abortedNoServer
  | abortedBusy
  | created
deriving DecidableEq, Repr

/-- `connect()` (source lines 56-78): abort if `userToken` is falsy (empty),
abort if `currentWsServer` is falsy (empty), abort if a socket exists whose
`readyState != 3`; otherwise replace `ws` by a fresh socket in the
connecting phase (readyState 0) dialling `currentWsServer`. -/
def connect (s : BconsState) : BconsState × ConnectResult :=
  if s.userToken = "" then (s, ConnectResult.abortedNoToken)
  else if s.currentWsServer = "" then (s, ConnectResult.abortedNoServer)
  else
    match s.ws with
    | some h =>
      if h.readyState ≠ 3 then (s, ConnectResult.abortedBusy)
      else ({ s with ws := some ⟨0, s.currentWsServer⟩ }, ConnectResult.created)
    | none => ({ s with ws := some ⟨0, s.currentWsServer⟩ }, ConnectResult.created)

/-- The authentication frame built by string interpolation at source
line 84: `\x7b"e": "auth", "userToken":"${userToken}", "device":"${device}"\x7d`. -/
def authFrame (userToken device : String) : String :=
  "\x7b\"e\": \"auth\", \"userToken\":\"" ++ userToken ++ "\", \"device\":\"" ++ device ++ "\"\x7d"

/-- The `onopen` handler (source lines 80-86): reset `reconnectCount` to 0
and send the authentication frame. -/
def handleOpen (s : BconsState) : BconsState × List Action :=
  ({ s with reconnectCount := 0 },
   [Action.sendFrame (authFrame s.userToken s.device)])

/-- The `onclose` handler (source lines 88-136).  `wasClean` is `e.wasClean`,
`code` is `e.code`, `reason` is `e.reason`; `freshId` stands for the timer id
returned by `setTimeout` in the dirty branch.

Clean branch: if `code == 302`, set `currentWsServer` to the reason and call
`connect()` synchronously; then (independently) if `400 < code < 500` and an
`onMessage` callback is registered, schedule one delivery of the error
payload after 3000 ms.  Dirty branch: increment `reconnectCount`, pick the
retry delay by the step thresholds (> 20 → 10000, > 10 → 7000, > 5 → 5000,
otherwise the initial 1000), switch back to the primary `wsServer` (forcing
the delay to 1000) when `reconnectCount > 5` and the current server differs,
clear any pending timer, and schedule exactly one reconnect timer. -/
def handleClose (s : BconsState) (wasClean : Bool) (code : Nat) (reason : String)
    (freshId : Nat) : BconsState × List Action :=
  if wasClean then
    let step1 : BconsState × List Action :=
      if code = 302 then
        let s' := { s with currentWsServer := reason }
        ((connect s').1, [Action.immediateConnect])
      else (s, [])
    let s1 := step1.1
    let acts2 : List Action :=
      if 400 < code ∧ code < 500 then
        if s1.hasOnMessage then [Action.scheduleErrorDelivery 3000 code reason]
        else []
      else []
    (s1, step1.2 ++ acts2)
  else
    let count := s.reconnectCount + 1
    let retry0 : Nat :=
      if count > 20 then 10000
      else if count > 10 then 7000
      else if count > 5 then 5000
      else 1000
    let switched : BconsState × Nat :=
      if count > 5 ∧ s.currentWsServer ≠ s.wsServer then
        ({ s with reconnectCount := count, currentWsServer := s.wsServer }, 1000)
      else ({ s with reconnectCount := count }, retry0)
    let cancels : List Action :=
      match s.reconnectTimerId with
      | some id => [Action.cancelTimer id]
      | none => []
    ({ switched.1 with reconnectTimerId := some freshId },
     cancels ++ [Action.scheduleReconnect switched.2])

/-- The `onerror` handler (source lines 138-140): log only, no state change,
no action other than logging. -/
def handleError (s : BconsState) : BconsState × List Action :=
  (s, [])

/-- Argument of `send(message)`: either an already-serialized string or a
structured value (which the code runs through `JSON.stringify`).  We keep the
serialized form of a structured value abstract as a string field. -/
inductive Message where
  | str (payload : String)
  | structured (serialized : String)
deriving DecidableEq, Repr

/-- Result of a `send(message)` call (source lines 156-167).  The code reads
`this.ws.readyState` without a null guard, so when no socket handle exists
the property access on `null` raises a TypeError (`raisedTypeError`).
Otherwise the message is silently dropped unless `readyState == 1`, in which
case it is transmitted (structured values after serialization). -/
inductive SendResult where
  | raisedTypeError
  | dropped
  | sent (payload : String)
deriving DecidableEq, Repr

/-- `send(message)` (source lines 156-167), faithful to the evaluation order:
`this.ws.readyState` is evaluated first, throwing on a `null` handle. -/
def send (s : BconsState) (m : Message) : SendResult :=
  match s.ws with
  | none => SendResult.raisedTypeError
  | some h =>
    if h.readyState ≠ 1 then SendResult.dropped
    else
      match m with
      | Message.str p => SendResult.sent p
      | Message.structured j => SendResult.sent j

/-- The options argument of the constructor (source lines 43-54): a JS object
with six recognized keys, each possibly absent (`undefined`). -/
structure ConstructorOptions where
  userToken : Option String
  wsServer : Option String
  device : Option String
  hasOnMessage : Option Bool
  hasMsgLog : Option Bool
  hasErrLog : Option Bool
deriving DecidableEq, Repr

/-- JS exceptions we need to distinguish. -/
inductive JsError where
  | typeError
deriving DecidableEq, Repr

/-- The constructor (source lines 43-54).  The `options` parameter may be
`undefined` (`none`): the loop body then evaluates `options[key]`, a property
access on `undefined`, which raises a TypeError before anything else happens.
With an object argument, each recognized present key overwrites the class
default (source lines 9-41), and `currentWsServer` is set to the resulting
`wsServer`. -/
def construct (options : Option ConstructorOptions) : Except JsError BconsState :=
  match options with
  | none => Except.error JsError.typeError
  | some o =>
    let token := o.userToken.getD ""
    let server := o.wsServer.getD "wss://bcons.dev/fry"
    Except.ok
      { userToken := token
        wsServer := server
        device := o.device.getD "custom"
        hasOnMessage := o.hasOnMessage.getD false
        ws := none
        reconnectCount := 0
        reconnectTimerId := none
        currentWsServer := server }

/-- Behaviour of the registered `onMessage` callback on a given payload:
it either returns normally or throws. -/
inductive CallbackBehavior where
  | returns
  | throws
deriving DecidableEq, Repr

/-- Observable outcome of one `onmessage` handler invocation. -/
structure MsgOutcome where
  delivered : Bool
  errLogged : Bool
  propagated : Bool
deriving DecidableEq, Repr

/-- The `onmessage` handler (source lines 142-153).  The whole body —
`JSON.parse(msg.data)` and the `this.onMessage(data)` call — sits inside one
try block whose catch clause calls `this.logErr(e)` and does not rethrow.
`parseOk` abstracts whether `JSON.parse` succeeds on the frame, `hasCb`
whether an `onMessage` callback is registered, `cb` whether that callback
returns or throws when invoked. -/
def handleMessage (hasCb : Bool) (parseOk : Bool) (cb : CallbackBehavior) : MsgOutcome :=
  if ¬ parseOk then
    { delivered := false, errLogged := true, propagated := false }
  else if hasCb then
    match cb with
    | CallbackBehavior.returns => { delivered := true, errLogged := false, propagated := false }
    | CallbackBehavior.throws => { delivered := true, errLogged := true, propagated := false }
  else
    { delivered := false, errLogged := false, propagated := false }

/-!
JSON model for the authentication frame (claim about the outbound wire
contract).  The frame only ever contains an object whose values are strings,
so a parser for flat JSON objects with string keys and string values is a
faithful fragment of `JSON.parse` on this wire format: a full JSON parser
agrees with it on every input the flat grammar accepts, and both reject the
malformed frames produced by quote injection.
-/

/-- JSON insignificant whitespace. -/
def isJsonWs (c : Char) : Bool :=
  c = ' ' ∨ c = '\n' ∨ c = '\t' ∨ c = '\r'

/-- Drop leading JSON whitespace. -/
def skipWs : List Char → List Char
  | [] => []
  | c :: cs => if isJsonWs c then skipWs cs else c :: cs

/-- Parse the body of a JSON string literal after its opening quote: plain
characters up to the closing quote, with the two escapes `\"` and `\\`
(sufficient for this wire format; other escapes and raw control characters
are rejected, as in RFC 8259).  Returns the decoded characters and the rest
of the input after the closing quote. -/
def parseStrBody : List Char → Option (List Char × List Char)
  | [] => none
  | c :: cs =>
    if c = '"' then some ([], cs)
    else if c = '\\' then
      match cs with
      | [] => none
      | d :: ds =>
        if d = '"' ∨ d = '\\' then
          (parseStrBody ds).map (fun p => (d :: p.1, p.2))
        else none
    else if c.toNat < 32 then none
    else (parseStrBody cs).map (fun p => (c :: p.1, p.2))

/-- Parse a JSON string literal including its opening quote. -/
def parseStrLit (cs : List Char) : Option (List Char × List Char) :=
  match cs with
  | '"' :: rest => parseStrBody rest
  | _ => none

/-- Result of parsing one `"key" : "value"` member: the pair, the input
after the following separator, and whether that separator was a comma
(`more`, further members follow) or the closing brace (`last`). -/
inductive MemberStep where
  | last (kv : String × String) (rest : List Char)
  | more (kv : String × String) (rest : List Char)
deriving DecidableEq, Repr

/-- Parse one member of a flat JSON object: a string key, a colon, a string
value, then either a comma or the closing brace. -/
def parseMember (cs : List Char) : Option MemberStep :=
  match parseStrLit (skipWs cs) with
  | none => none
  | some (key, r1) =>
    match skipWs r1 with
    | ':' :: r2 =>
      match parseStrLit (skipWs r2) with
      | none => none
      | some (val, r3) =>
        match skipWs r3 with
        | ',' :: r4 => some (MemberStep.more (String.mk key, String.mk val) r4)
        | '\x7d' :: r4 => some (MemberStep.last (String.mk key, String.mk val) r4)
        | _ => none
    | _ => none

/-- Parse the members of a flat JSON object (string keys, string values),
starting right after the opening brace, up to and including the closing
brace.  `fuel` bounds the number of members. -/
def parseMembers : Nat → List Char → Option (List (String × String) × List Char)
  | 0, _ => none
  | fuel + 1, cs =>
    match parseMember cs with
    | some (MemberStep.last kv rest) => some ([kv], rest)
    | some (MemberStep.more kv rest) =>
      (parseMembers fuel rest).map (fun p => (kv :: p.1, p.2))
    | none => none

/-- Parse a whole input as a flat JSON object (string keys and values),
requiring only whitespace after the closing brace.  Returns the member list
in textual order, or `none` when the input is not valid JSON of this shape. -/
def parseFlatObj (s : String) : Option (List (String × String)) :=
  match skipWs s.data with
  | '\x7b' :: r1 =>
    match skipWs r1 with
    | '\x7d' :: r2 => if skipWs r2 = [] then some [] else none
    | _ =>
      match parseMembers (s.data.length + 1) r1 with
      | some (ms, rest) => if skipWs rest = [] then some ms else none
      | none => none
  | _ => none

/-- A character that may sit unescaped inside a JSON string literal and is
reproduced verbatim by `JSON.parse`: not a quote, not a backslash, not a
control character. -/
def jsonPlain (c : Char) : Bool :=
  c ≠ '"' ∧ c ≠ '\\' ∧ 32 ≤ c.toNat

/-- The delays of the reconnect timers scheduled by a handler invocation, in
program order (used to express "exactly one reconnect timer with delay d"
as `reconnectDelays acts = [d]`). -/
def reconnectDelays (acts : List Action) : List Nat :=
  acts.foldr
    (fun a r =>
      match a with
      | Action.scheduleReconnect d => d :: r
      | _ => r)
    []

/-- State after `n` consecutive dirty closes with no intervening open
(close code 1006, abnormal closure; the dirty branch ignores code and
reason; the `n`-th `setTimeout` id is modelled as `n`). -/
def iterDirty (s : BconsState) : Nat → BconsState
  | 0 => s
  | n + 1 => (handleClose (iterDirty s n) false 1006 "" n).1

/-- The retry-delay schedule as the specification states it: `1000` for
`k ≤ 5`, `5000` for `5 < k ≤ 10`, `7000` for `10 < k ≤ 20`, `10000` for
`k > 20`, where `k` is the number of consecutive dirty closes.  Written from
the spec's words, to be compared with the delays `handleClose` computes. -/
def specRetrySchedule (k : Nat) : Nat :=
  if k ≤ 5 then 1000
  else if k ≤ 10 then 5000
  else if k ≤ 20 then 7000
  else 10000

/-! ## General lemmas about the handlers -/

/-- `connect` only ever modifies the `ws` field. -/
theorem connect_preserves (s : BconsState) :
    (connect s).1.userToken = s.userToken ∧
    (connect s).1.wsServer = s.wsServer ∧
    (connect s).1.device = s.device ∧
    (connect s).1.hasOnMessage = s.hasOnMessage ∧
    (connect s).1.reconnectCount = s.reconnectCount ∧
    (connect s).1.reconnectTimerId = s.reconnectTimerId ∧
    (connect s).1.currentWsServer = s.currentWsServer := by
  unfold connect
  cases s.ws <;> dsimp only <;> split_ifs <;> simp_all
theorem handleClose_dirty_reconnectCount (s : BconsState) (c f : Nat) (r : String) :
    (handleClose s false c r f).1.reconnectCount = s.reconnectCount + 1 := by
  unfold handleClose
  simp only [Bool.false_eq_true, if_false]
  split_ifs <;> simp

theorem handleClose_wsServer (s : BconsState) (b : Bool) (c f : Nat) (r : String) :
    (handleClose s b c r f).1.wsServer = s.wsServer := by
  unfold handleClose
  cases b <;> simp only [Bool.false_eq_true, if_false, if_true] <;>
    split_ifs <;> simp_all [(connect_preserves _).2.1]

theorem handleClose_dirty_currentWsServer_eq (s : BconsState) (c f : Nat) (r : String)
    (h : s.currentWsServer = s.wsServer) :
    (handleClose s false c r f).1.currentWsServer = s.wsServer := by
  unfold handleClose
  simp only [Bool.false_eq_true, if_false]
  split_ifs <;> simp_all

theorem handleClose_dirty_delays (s : BconsState) (c f : Nat) (r : String) :
    reconnectDelays (handleClose s false c r f).2 =
      [if s.reconnectCount + 1 > 5 ∧ s.currentWsServer ≠ s.wsServer then 1000
       else if s.reconnectCount + 1 > 20 then 10000
       else if s.reconnectCount + 1 > 10 then 7000
       else if s.reconnectCount + 1 > 5 then 5000
       else 1000] := by
  unfold handleClose
  simp only [Bool.false_eq_true, if_false]
  cases htid : s.reconnectTimerId <;>
    split_ifs <;> simp_all [reconnectDelays]

theorem handleClose_dirty_delay_primary (s : BconsState) (c f : Nat) (r : String)
    (h : s.currentWsServer = s.wsServer) :
    reconnectDelays (handleClose s false c r f).2 =
      [specRetrySchedule (s.reconnectCount + 1)] := by
  rw [handleClose_dirty_delays]
  unfold specRetrySchedule
  split_ifs <;> simp_all <;> omega


/-- A clean close with any code other than 302 leaves the state untouched. -/
theorem handleClose_clean_non302 (s : BconsState) (c f : Nat) (r : String)
    (hc : c ≠ 302) :
    (handleClose s true c r f).1 = s := by
  unfold handleClose
  simp [hc]

/-- Counters and server selection across iterated dirty closes: starting
from a state whose current server is the primary one, `n` dirty closes
increment `reconnectCount` by `n` and keep both server fields fixed. -/
theorem iterDirty_invariant (s : BconsState) (hsrv : s.currentWsServer = s.wsServer) :
    ∀ n, (iterDirty s n).reconnectCount = s.reconnectCount + n ∧
         (iterDirty s n).wsServer = s.wsServer ∧
         (iterDirty s n).currentWsServer = s.wsServer := by
  intro n
  induction n with
  | zero => exact ⟨rfl, rfl, hsrv⟩
  | succ n ih =>
    refine ⟨?_, ?_, ?_⟩
    · rw [iterDirty, handleClose_dirty_reconnectCount, ih.1]
      omega
    · rw [iterDirty, handleClose_wsServer, ih.2.1]
    · rw [iterDirty, handleClose_dirty_currentWsServer_eq _ _ _ _ (ih.2.2.trans ih.2.1.symm),
        ih.2.1]

/-- Claim C1: on a clean close whose code `c` satisfies `400 < c < 500`,
with an inbound-message sink registered, the handler leaves the state
untouched (no new socket, no reconnect timer, counters and servers
unchanged) and emits exactly one delayed error delivery: the payload
`(errorCode c, reason)` scheduled 3000 ms out. -/
theorem c1_clean_4xx_terminal (s : BconsState) (c f : Nat) (r : String)
    (h1 : 400 < c) (h2 : c < 500) (hcb : s.hasOnMessage = true) :
    (handleClose s true c r f).1 = s ∧
    (handleClose s true c r f).2 = [Action.scheduleErrorDelivery 3000 c r] := by
  have hc : c ≠ 302 := by omega
  unfold handleClose
  simp [hc, h1, h2, hcb]

/-- Witness for C1 at code 403. -/
theorem c1_witness :
    (handleClose
      { userToken := "t", wsServer := "wss://bcons.dev/fry", device := "custom",
        hasOnMessage := true, ws := none, reconnectCount := 2,
        reconnectTimerId := none, currentWsServer := "wss://bcons.dev/fry" }
      true 403 "bad token" 0).1 =
      { userToken := "t", wsServer := "wss://bcons.dev/fry", device := "custom",
        hasOnMessage := true, ws := none, reconnectCount := 2,
        reconnectTimerId := none, currentWsServer := "wss://bcons.dev/fry" } ∧
    (handleClose
      { userToken := "t", wsServer := "wss://bcons.dev/fry", device := "custom",
        hasOnMessage := true, ws := none, reconnectCount := 2,
        reconnectTimerId := none, currentWsServer := "wss://bcons.dev/fry" }
      true 403 "bad token" 0).2 = [Action.scheduleErrorDelivery 3000 403 "bad token"] :=
  c1_clean_4xx_terminal _ 403 0 "bad token" (by decide) (by decide) rfl

/-- Claim C2: starting from a zero counter with the current server equal to
the primary one, the `k`-th of a run of consecutive dirty closes (no
intervening open) schedules exactly one reconnect timer, and its delay is
the spec's step schedule: 1000 ms for `k ≤ 5`, 5000 for `5 < k ≤ 10`,
7000 for `10 < k ≤ 20`, 10000 for `k > 20`. -/
theorem c2_dirty_backoff_schedule (s : BconsState) (k c f : Nat) (r : String)
    (h0 : s.reconnectCount = 0)
    (hsrv : s.currentWsServer = s.wsServer)
    (hk : 1 ≤ k) :
    reconnectDelays (handleClose (iterDirty s (k - 1)) false c r f).2 =
      [specRetrySchedule k] := by
  obtain ⟨hcnt, hws, hcur⟩ := iterDirty_invariant s hsrv (k - 1)
  rw [handleClose_dirty_delay_primary _ _ _ _ (hcur.trans hws.symm), hcnt, h0]
  have hk1 : 0 + (k - 1) + 1 = k := by omega
  rw [hk1]

/-- Witness for C2 at k = 7 (delay 5000). -/
theorem c2_witness :
    reconnectDelays
      (handleClose
        (iterDirty
          { userToken := "t", wsServer := "wss://bcons.dev/fry", device := "custom",
            hasOnMessage := false, ws := none, reconnectCount := 0,
            reconnectTimerId := none, currentWsServer := "wss://bcons.dev/fry" }
          (7 - 1))
        false 1006 "gone" 7).2 = [5000] :=
  (c2_dirty_backoff_schedule _ 7 1006 7 "gone" rfl rfl (by decide)).trans (by decide)


/-- Claim C3: a dirty close that pushes the consecutive-failure counter
past 5 while the current server differs from the configured primary one
switches the current server back to the primary server and forces the
scheduled retry delay for that event to 1000 ms.  Afterwards, with no
redirect, every further event preserves `currentWsServer = wsServer`:
dirty closes keep the equality, an open leaves both server fields alone,
and a clean close with any code other than 302 leaves the state untouched. -/
theorem c3_failover_reset_to_primary (s : BconsState) (c f : Nat) (r : String)
    (hcount : 5 ≤ s.reconnectCount)
    (hdiff : s.currentWsServer ≠ s.wsServer) :
    (handleClose s false c r f).1.currentWsServer = s.wsServer ∧
    (handleClose s false c r f).1.currentWsServer = (handleClose s false c r f).1.wsServer ∧
    reconnectDelays (handleClose s false c r f).2 = [1000] ∧
    (∀ (s' : BconsState), s'.currentWsServer = s'.wsServer →
      (∀ (c' f' : Nat) (r' : String),
        (handleClose s' false c' r' f').1.currentWsServer =
          (handleClose s' false c' r' f').1.wsServer) ∧
      (handleOpen s').1.currentWsServer = (handleOpen s').1.wsServer ∧
      (∀ (c' f' : Nat) (r' : String), c' ≠ 302 →
        (handleClose s' true c' r' f').1 = s')) := by
  have hsw : (handleClose s false c r f).1.currentWsServer = s.wsServer := by
    unfold handleClose
    simp only [Bool.false_eq_true, if_false]
    split_ifs <;> simp_all <;> omega
  refine ⟨hsw, ?_, ?_, ?_⟩
  · rw [hsw, handleClose_wsServer]
  · rw [handleClose_dirty_delays]
    rw [if_pos ⟨by omega, hdiff⟩]
  · intro s' hs'
    refine ⟨?_, hs', ?_⟩
    · intro c' f' r'
      rw [handleClose_dirty_currentWsServer_eq _ _ _ _ hs', handleClose_wsServer]
    · intro c' f' r' hc'
      exact handleClose_clean_non302 s' c' f' r' hc'

/-- Witness for C3: sixth consecutive dirty close on a failover address. -/
theorem c3_witness :
    (handleClose
      { userToken := "t", wsServer := "wss://bcons.dev/fry", device := "custom",
        hasOnMessage := false, ws := none, reconnectCount := 5,
        reconnectTimerId := some 4, currentWsServer := "wss://failover.example" }
      false 1006 "" 9).1.currentWsServer = "wss://bcons.dev/fry" ∧
    reconnectDelays
      (handleClose
        { userToken := "t", wsServer := "wss://bcons.dev/fry", device := "custom",
          hasOnMessage := false, ws := none, reconnectCount := 5,
          reconnectTimerId := some 4, currentWsServer := "wss://failover.example" }
        false 1006 "" 9).2 = [1000] := by
  have h := c3_failover_reset_to_primary
    { userToken := "t", wsServer := "wss://bcons.dev/fry", device := "custom",
      hasOnMessage := false, ws := none, reconnectCount := 5,
      reconnectTimerId := some 4, currentWsServer := "wss://failover.example" }
    1006 9 "" (by decide) (by decide)
  exact ⟨h.1, h.2.2.1⟩

/-- Claim C4: a clean close with code 302 and reason `R` sets the current
server to `R` and synchronously re-invokes `connect()` — the handler's
resulting state is exactly the state `connect` produces from the redirected
state, the retry counter is untouched, and no reconnect timer is scheduled
(the only emitted effect is the immediate connect call). -/
theorem c4_redirect_302 (s : BconsState) (R : String) (f : Nat) :
    (handleClose s true 302 R f).1 = (connect { s with currentWsServer := R }).1 ∧
    (handleClose s true 302 R f).1.currentWsServer = R ∧
    (handleClose s true 302 R f).1.reconnectCount = s.reconnectCount ∧
    (handleClose s true 302 R f).2 = [Action.immediateConnect] := by
  have hstate : (handleClose s true 302 R f).1 = (connect { s with currentWsServer := R }).1 := by
    unfold handleClose
    simp
  refine ⟨hstate, ?_, ?_, ?_⟩
  · rw [hstate, (connect_preserves _).2.2.2.2.2.2]
  · rw [hstate, (connect_preserves _).2.2.2.2.1]
  · unfold handleClose
    simp

/-- Claim C5: `connect()` invoked while a socket handle exists whose phase
is connecting, open, or closing (`readyState ≠ 3`) changes nothing: the
state (socket, counter, timer, servers) is returned as-is and no socket is
created. -/
theorem c5_connect_busy_noop (s : BconsState) (h : SocketHandle)
    (hws : s.ws = some h) (hrs : h.readyState ≠ 3) :
    (connect s).1 = s ∧ (connect s).2 ≠ ConnectResult.created := by
  unfold connect
  simp only [hws]
  split_ifs <;> simp_all

/-- Witness for C5: a state holding an open socket (readyState 1). -/
theorem c5_witness :
    (connect
      { userToken := "t", wsServer := "wss://bcons.dev/fry", device := "custom",
        hasOnMessage := false, ws := some ⟨1, "wss://bcons.dev/fry"⟩,
        reconnectCount := 0, reconnectTimerId := none,
        currentWsServer := "wss://bcons.dev/fry" }).1 =
      { userToken := "t", wsServer := "wss://bcons.dev/fry", device := "custom",
        hasOnMessage := false, ws := some ⟨1, "wss://bcons.dev/fry"⟩,
        reconnectCount := 0, reconnectTimerId := none,
        currentWsServer := "wss://bcons.dev/fry" } ∧
    (connect
      { userToken := "t", wsServer := "wss://bcons.dev/fry", device := "custom",
        hasOnMessage := false, ws := some ⟨1, "wss://bcons.dev/fry"⟩,
        reconnectCount := 0, reconnectTimerId := none,
        currentWsServer := "wss://bcons.dev/fry" }).2 ≠ ConnectResult.created :=
  c5_connect_busy_noop _ ⟨1, "wss://bcons.dev/fry"⟩ rfl (by decide)


/-- Counterexample to claim C6 as stated: before any `connect()` the state
produced by the constructor holds no socket handle (`ws = none`), and
`send` then evaluates `this.ws.readyState` on `null`, raising a TypeError
to the caller instead of being a silent no-op. -/
theorem c6_counterexample :
    construct (some
      { userToken := some "t", wsServer := none, device := none,
        hasOnMessage := none, hasMsgLog := none, hasErrLog := none }) =
      Except.ok
        { userToken := "t", wsServer := "wss://bcons.dev/fry", device := "custom",
          hasOnMessage := false, ws := none, reconnectCount := 0,
          reconnectTimerId := none, currentWsServer := "wss://bcons.dev/fry" } ∧
    send
      { userToken := "t", wsServer := "wss://bcons.dev/fry", device := "custom",
        hasOnMessage := false, ws := none, reconnectCount := 0,
        reconnectTimerId := none, currentWsServer := "wss://bcons.dev/fry" }
      (Message.str "hi") = SendResult.raisedTypeError :=
  ⟨rfl, rfl⟩

/-- Claim C6 (amended): whenever a socket handle exists, `send(message)` is
a silent no-op unless the transport phase is exactly open (readyState 1),
and it never raises; only when no socket handle exists (before any
`connect()`) does `send` raise a TypeError. -/
theorem c6_send_silent_with_handle (s : BconsState) (h : SocketHandle) (m : Message)
    (hws : s.ws = some h) :
    send s m ≠ SendResult.raisedTypeError ∧
    (h.readyState ≠ 1 → send s m = SendResult.dropped) := by
  unfold send
  simp only [hws]
  split_ifs <;> cases m <;> simp_all

/-- Witness for C6 (amended): a closing socket (readyState 2) drops the
message silently. -/
theorem c6_witness :
    send
      { userToken := "t", wsServer := "wss://bcons.dev/fry", device := "custom",
        hasOnMessage := false, ws := some ⟨2, "wss://bcons.dev/fry"⟩,
        reconnectCount := 0, reconnectTimerId := none,
        currentWsServer := "wss://bcons.dev/fry" }
      (Message.str "hi") ≠ SendResult.raisedTypeError ∧
    send
      { userToken := "t", wsServer := "wss://bcons.dev/fry", device := "custom",
        hasOnMessage := false, ws := some ⟨2, "wss://bcons.dev/fry"⟩,
        reconnectCount := 0, reconnectTimerId := none,
        currentWsServer := "wss://bcons.dev/fry" }
      (Message.str "hi") = SendResult.dropped :=
  ⟨(c6_send_silent_with_handle _ ⟨2, "wss://bcons.dev/fry"⟩ (Message.str "hi") rfl).1,
   (c6_send_silent_with_handle _ ⟨2, "wss://bcons.dev/fry"⟩ (Message.str "hi") rfl).2
     (by decide)⟩

/-- Claim C8: every transport open event resets `reconnectCount` to 0
regardless of its prior value, and no other event handler resets it: a
clean close (any code) leaves the counter unchanged, a dirty close sets it
to its successor — never 0 — and the error handler returns the state
untouched (`send` and the `onmessage` handler do not modify the state in
this model). -/
theorem c8_only_open_resets_counter (s : BconsState) (c f : Nat) (r : String) :
    (handleOpen s).1.reconnectCount = 0 ∧
    (handleClose s true c r f).1.reconnectCount = s.reconnectCount ∧
    (handleClose s false c r f).1.reconnectCount = s.reconnectCount + 1 ∧
    (handleClose s false c r f).1.reconnectCount ≠ 0 ∧
    (handleError s).1 = s := by
  refine ⟨rfl, ?_, handleClose_dirty_reconnectCount s c f r, ?_, rfl⟩
  · unfold handleClose
    split_ifs <;> simp_all [(connect_preserves _).2.2.2.2.1]
  · rw [handleClose_dirty_reconnectCount]
    omega

/-- Claim C9: constructing a `BconsWS` with `options` undefined raises a
TypeError (each recognized key is read from `options` unconditionally, and
a property read on `undefined` throws), while construction succeeds for
every object argument, including the empty object. -/
theorem c9_constructor_requires_object (o : ConstructorOptions) :
    construct none = Except.error JsError.typeError ∧
    ∃ st, construct (some o) = Except.ok st :=
  ⟨rfl, _, rfl⟩

/-- Claim C10: the try/catch in the `onmessage` handler catches both
JSON parse failures and exceptions thrown by the registered `onMessage`
callback: nothing ever propagates out of the handler, a parse failure is
logged through the error-log capability, and a throwing sink is invoked
once and its exception logged — it cannot disrupt the connection. -/
theorem c10_message_exceptions_contained (hasCb parseOk : Bool) (cb : CallbackBehavior) :
    (handleMessage hasCb parseOk cb).propagated = false ∧
    (parseOk = false → (handleMessage hasCb parseOk cb).errLogged = true) ∧
    (parseOk = true → hasCb = true → cb = CallbackBehavior.throws →
      (handleMessage hasCb parseOk cb).delivered = true ∧
      (handleMessage hasCb parseOk cb).errLogged = true) := by
  cases hasCb <;> cases parseOk <;> cases cb <;> simp [handleMessage]

/-- Witness for C10: a registered callback that throws on a well-formed
frame is contained and logged. -/
theorem c10_witness :
    (handleMessage true true CallbackBehavior.throws).propagated = false ∧
    (handleMessage true true CallbackBehavior.throws).delivered = true ∧
    (handleMessage true true CallbackBehavior.throws).errLogged = true :=
  ⟨(c10_message_exceptions_contained true true CallbackBehavior.throws).1,
   ((c10_message_exceptions_contained true true CallbackBehavior.throws).2.2 rfl rfl rfl).1,
   ((c10_message_exceptions_contained true true CallbackBehavior.throws).2.2 rfl rfl rfl).2⟩


theorem str_data_append (a b : String) : (a ++ b).data = a.data ++ b.data := rfl

theorem parseStrBody_append (body rest : List Char)
    (h : ∀ c ∈ body, jsonPlain c = true) :
    parseStrBody (body ++ '"' :: rest) = some (body, rest) := by
  induction body with
  | nil => rw [List.nil_append, parseStrBody.eq_def]; simp
  | cons c bs ih =>
    have hc := h c (List.mem_cons_self c bs)
    have hbs : ∀ x ∈ bs, jsonPlain x = true := fun x hx => h x (List.mem_cons_of_mem _ hx)
    simp only [jsonPlain, decide_eq_true_eq] at hc
    rw [List.cons_append, parseStrBody.eq_def]
    simp [hc.1, hc.2.1, Nat.not_lt.mpr hc.2.2, ih hbs]


theorem parseMember_e_auth (rest : List Char) :
    parseMember ('"' :: 'e' :: '"' :: ':' :: ' ' :: '"' :: 'a' :: 'u' :: 't' :: 'h' :: '"' :: ',' ::rest) =
      some (MemberStep.more ("e", "auth") rest) := rfl

theorem parseMember_userToken (tl rest : List Char)
    (h : ∀ c ∈ tl, jsonPlain c = true) :
    parseMember (' ' :: '"' :: 'u' :: 's' :: 'e' :: 'r' :: 'T' :: 'o' :: 'k' :: 'e' :: 'n' :: '"' :: ':' :: '"' ::
        (tl ++ '"' :: ',' ::rest)) =
      some (MemberStep.more ("userToken", String.mk tl) rest) := by
  have hval : parseStrBody (tl ++ '"' :: ',' ::rest) = some (tl, ',' ::rest) :=
    parseStrBody_append tl (',' ::rest) h
  change (match parseStrBody (tl ++ '"' :: ',' ::rest) with
    | none => none
    | some (val, r3) =>
      match skipWs r3 with
      | ',' :: r4 => some (MemberStep.more ("userToken", String.mk val) r4)
      | '\x7d' :: r4 => some (MemberStep.last ("userToken", String.mk val) r4)
      | _ => none) = some (MemberStep.more ("userToken", String.mk tl) rest)
  rw [hval]
  rfl


theorem parseMember_device (dl : List Char)
    (h : ∀ c ∈ dl, jsonPlain c = true) :
    parseMember (' ' :: '"' :: 'd' :: 'e' :: 'v' :: 'i' :: 'c' :: 'e' :: '"' :: ':' :: '"' ::
        (dl ++ '"' :: '\x7d' ::[])) =
      some (MemberStep.last ("device", String.mk dl) []) := by
  have hval : parseStrBody (dl ++ '"' :: '\x7d' ::[]) = some (dl, '\x7d' ::[]) :=
    parseStrBody_append dl ('\x7d' ::[]) h
  change (match parseStrBody (dl ++ '"' :: '\x7d' ::[]) with
    | none => none
    | some (val, r3) =>
      match skipWs r3 with
      | ',' :: r4 => some (MemberStep.more ("device", String.mk val) r4)
      | '\x7d' :: r4 => some (MemberStep.last ("device", String.mk val) r4)
      | _ => none) = some (MemberStep.last ("device", String.mk dl) [])
  rw [hval]
  rfl

theorem parseMembers_succ (fuel : Nat) (cs : List Char) :
    parseMembers (fuel + 1) cs =
      match parseMember cs with
      | some (MemberStep.last kv rest) => some ([kv], rest)
      | some (MemberStep.more kv rest) =>
        (parseMembers fuel rest).map (fun p => (kv :: p.1, p.2))
      | none => none := rfl

/-- Parsing the member part of the authentication frame: given any
sufficient fuel, the three members parse to exactly the fields `e`,
`userToken`, `device`, consuming the whole input. -/
theorem parseMembers_auth (f : Nat) (tl dl : List Char)
    (ht : ∀ c ∈ tl, jsonPlain c = true) (hd : ∀ c ∈ dl, jsonPlain c = true) :
    parseMembers (f + 3)
      ('"' :: 'e' :: '"' :: ':' :: ' ' :: '"' :: 'a' :: 'u' :: 't' :: 'h' :: '"' :: ',' :: ' ' ::
        '"' :: 'u' :: 's' :: 'e' :: 'r' :: 'T' :: 'o' :: 'k' :: 'e' :: 'n' :: '"' :: ':' :: '"' ::
        (tl ++ '"' :: ',' :: ' ' :: '"' :: 'd' :: 'e' :: 'v' :: 'i' :: 'c' :: 'e' :: '"' :: ':' :: '"' ::
          (dl ++ '"' :: '\x7d' ::[]))) =
      some ([("e", "auth"), ("userToken", String.mk tl), ("device", String.mk dl)], []) := by
  rw [show f + 3 = (f + 2) + 1 by omega, parseMembers_succ]
  rw [parseMember_e_auth]
  dsimp only
  rw [show f + 2 = (f + 1) + 1 by omega, parseMembers_succ]
  rw [parseMember_userToken tl _ ht]
  dsimp only
  rw [parseMembers_succ]
  rw [parseMember_device dl hd]
  rfl


/-- Character-level decomposition of the authentication frame. -/
theorem authFrame_data (tl dl : List Char) :
    (authFrame (String.mk tl) (String.mk dl)).data =
      '\x7b' :: '"' :: 'e' :: '"' :: ':' :: ' ' :: '"' :: 'a' :: 'u' :: 't' :: 'h' :: '"' :: ',' :: ' ' ::
        '"' :: 'u' :: 's' :: 'e' :: 'r' :: 'T' :: 'o' :: 'k' :: 'e' :: 'n' :: '"' :: ':' :: '"' ::
        (tl ++ '"' :: ',' :: ' ' :: '"' :: 'd' :: 'e' :: 'v' :: 'i' :: 'c' :: 'e' :: '"' :: ':' :: '"' ::
          (dl ++ '"' :: '\x7d' ::[])) := by
  have h1 : (authFrame (String.mk tl) (String.mk dl)).data =
      ("\x7b\"e\": \"auth\", \"userToken\":\"").data ++
        (tl ++ (("\", \"device\":\"").data ++ (dl ++ ("\"\x7d").data))) := by
    simp [authFrame, str_data_append, List.append_assoc]
  rw [h1]
  rfl

/-- Auxiliary form of the amended C7 statement over raw strings: for
tokens and device labels made of JSON-plain characters, the interpolated
authentication frame parses as an object with exactly the three fields. -/
theorem authFrame_parses (t d : String)
    (ht : ∀ c ∈ t.data, jsonPlain c = true)
    (hd : ∀ c ∈ d.data, jsonPlain c = true) :
    parseFlatObj (authFrame t d) =
      some [("e", "auth"), ("userToken", t), ("device", d)] := by
  obtain ⟨tl⟩ := t
  obtain ⟨dl⟩ := d
  have hdata := authFrame_data tl dl
  unfold parseFlatObj
  rw [hdata]
  have hlen : ('\x7b' :: '"' :: 'e' :: '"' :: ':' :: ' ' :: '"' :: 'a' :: 'u' :: 't' :: 'h' :: '"' :: ',' :: ' ' ::
        '"' :: 'u' :: 's' :: 'e' :: 'r' :: 'T' :: 'o' :: 'k' :: 'e' :: 'n' :: '"' :: ':' :: '"' ::
        (tl ++ '"' :: ',' :: ' ' :: '"' :: 'd' :: 'e' :: 'v' :: 'i' :: 'c' :: 'e' :: '"' :: ':' :: '"' ::
          (dl ++ '"' :: '\x7d' ::[]))).length + 1 =
      (('\x7b' :: '"' :: 'e' :: '"' :: ':' :: ' ' :: '"' :: 'a' :: 'u' :: 't' :: 'h' :: '"' :: ',' :: ' ' ::
        '"' :: 'u' :: 's' :: 'e' :: 'r' :: 'T' :: 'o' :: 'k' :: 'e' :: 'n' :: '"' :: ':' :: '"' ::
        (tl ++ '"' :: ',' :: ' ' :: '"' :: 'd' :: 'e' :: 'v' :: 'i' :: 'c' :: 'e' :: '"' :: ':' :: '"' ::
          (dl ++ '"' :: '\x7d' ::[]))).length - 2) + 3 := by
    simp [List.length_append]
  rw [hlen]
  change (match parseMembers
      ((('\x7b' :: '"' :: 'e' :: '"' :: ':' :: ' ' :: '"' :: 'a' :: 'u' :: 't' :: 'h' :: '"' :: ',' :: ' ' ::
        '"' :: 'u' :: 's' :: 'e' :: 'r' :: 'T' :: 'o' :: 'k' :: 'e' :: 'n' :: '"' :: ':' :: '"' ::
        (tl ++ '"' :: ',' :: ' ' :: '"' :: 'd' :: 'e' :: 'v' :: 'i' :: 'c' :: 'e' :: '"' :: ':' :: '"' ::
          (dl ++ '"' :: '\x7d' ::[]))).length - 2) + 3)
      ('"' :: 'e' :: '"' :: ':' :: ' ' :: '"' :: 'a' :: 'u' :: 't' :: 'h' :: '"' :: ',' :: ' ' ::
        '"' :: 'u' :: 's' :: 'e' :: 'r' :: 'T' :: 'o' :: 'k' :: 'e' :: 'n' :: '"' :: ':' :: '"' ::
        (tl ++ '"' :: ',' :: ' ' :: '"' :: 'd' :: 'e' :: 'v' :: 'i' :: 'c' :: 'e' :: '"' :: ':' :: '"' ::
          (dl ++ '"' :: '\x7d' ::[]))) with
    | some (ms, rest) => if skipWs rest = [] then some ms else none
    | none => none) =
    some [("e", "auth"), ("userToken", String.mk tl), ("device", String.mk dl)]
  rw [parseMembers_auth _ tl dl ht hd]
  rfl


/-- Counterexample to claim C7 as stated: the frame is built by string
interpolation with no escaping, so it does not parse as a three-field JSON
object for every token and device.  A token containing a double quote
yields a frame that is not valid JSON at all, and a token containing
`", "admin":"yes` injects a fourth field. -/
theorem c7_counterexample :
    parseFlatObj (authFrame "\"" "custom") = none ∧
    parseFlatObj (authFrame "x\", \"admin\":\"yes" "custom") =
      some [("e", "auth"), ("userToken", "x"), ("admin", "yes"), ("device", "custom")] :=
  ⟨rfl, rfl⟩

/-- Claim C7 (amended): on every transport open event the client transmits
a single frame, and whenever the configured token and device consist of
JSON-plain characters (no quote, no backslash, no control characters) that
frame parses as a JSON object with exactly three string fields: `e` equal
to `"auth"`, `userToken` equal to the token, `device` equal to the device
identifier. -/
theorem c7_auth_frame_wire_format (s : BconsState)
    (ht : ∀ c ∈ s.userToken.data, jsonPlain c = true)
    (hd : ∀ c ∈ s.device.data, jsonPlain c = true) :
    (handleOpen s).2 = [Action.sendFrame (authFrame s.userToken s.device)] ∧
    parseFlatObj (authFrame s.userToken s.device) =
      some [("e", "auth"), ("userToken", s.userToken), ("device", s.device)] :=
  ⟨rfl, authFrame_parses s.userToken s.device ht hd⟩

/-- Witness for C7 (amended) at a concrete token and device. -/
theorem c7_witness :
    (handleOpen
      { userToken := "secret-token", wsServer := "wss://bcons.dev/fry", device := "BE",
        hasOnMessage := true, ws := some ⟨1, "wss://bcons.dev/fry"⟩,
        reconnectCount := 3, reconnectTimerId := none,
        currentWsServer := "wss://bcons.dev/fry" }).2 =
      [Action.sendFrame (authFrame "secret-token" "BE")] ∧
    parseFlatObj (authFrame "secret-token" "BE") =
      some [("e", "auth"), ("userToken", "secret-token"), ("device", "BE")] :=
  c7_auth_frame_wire_format
    { userToken := "secret-token", wsServer := "wss://bcons.dev/fry", device := "BE",
      hasOnMessage := true, ws := some ⟨1, "wss://bcons.dev/fry"⟩,
      reconnectCount := 3, reconnectTimerId := none,
      currentWsServer := "wss://bcons.dev/fry" }
    (by decide) (by decide)

end BconsWS
